/-
Verification of broh5 (browser-based HDF5 viewer).

Shallow embedding of the data-inspection classifier, the display
dispatcher and the export helpers of the repository:

  * `broh5/lib/utilities.py` : `get_hdf_data`, `hdf_tree_to_dict`
    (with the private helper `__recurse`), `format_table_from_array`,
    `save_image`, `save_table`;
  * `broh5_mono/main.py` (monolithic variant) : the UI-state
    transformers `disable_sliders`, `enable_ui_elements_3d_data`,
    `enable_ui_elements_1d_2d_data`, `reset`, `display_1d_2d_data`,
    `display_3d_data`, the dispatch of `show_data`, and the export
    handlers `save_data` / `save_image`.

Conventions of the embedding:

  * numpy scalars are modelled as rationals (`ℚ`); 1d/2d/3d numpy
    arrays as (nested) lists, read in row-major order, assumed
    rectangular where the numpy shape matters;
  * `np.uint8` applied to a float truncates toward zero and wraps
    modulo 256 (C cast semantics);
  * Python functions that can raise are modelled in `Except String`;
    an external effect that may fail (opening a file, writing to disk)
    is passed in as an `Except String` argument, and a `try/except`
    block becomes a `match` on the `Except` value;
  * division by zero in `ℚ` yields `0`; where the Python code divides
    by zero (numpy emits nan), the theorems only ever talk about the
    divisor, never about the junk quotient.
-/

import Mathlib

namespace Broh5

/-! ## Basic numpy-like operations -/

/-- A 2d numpy array of numbers, row major. -/
abbrev Mat := List (List ℚ)

/-- A 3d numpy array of numbers: list of 2d planes. -/
abbrev Arr3 := List Mat

/-- All elements of a 2d array, row major (`mat.flatten()` order). -/
def matElems (m : Mat) : List ℚ := m.flatten

/-- Truncation toward zero of a rational (C cast float → int). -/
def truncQ (q : ℚ) : Int := if 0 ≤ q then ⌊q⌋ else ⌈q⌉

/-- `np.uint8` applied to a float value: truncate toward zero, wrap mod 256. -/
def toUint8 (q : ℚ) : Nat := ((truncQ q) % 256).toNat

/-- Error message of `np.min`/`np.max` on a zero-size array. -/
def zeroSizeErr : String :=
  "ValueError: zero-size array to reduction operation which has no identity"

/-- `np.min` over a 2d array; raises on a zero-size array. -/
def npMin (m : Mat) : Except String ℚ :=
  match matElems m with
  | [] => .error zeroSizeErr
  | x :: xs => .ok (xs.foldl min x)

/-- `np.max` over a 2d array; raises on a zero-size array. -/
def npMax (m : Mat) : Except String ℚ :=
  match matElems m with
  | [] => .error zeroSizeErr
  | x :: xs => .ok (xs.foldl max x)

/-! ## Python path helpers (`os.path`) -/

/-- Index of the last occurrence of a character in a list, if any. -/
def lastIdxOf (c : Char) : List Char → Option Nat
  | [] => none
  | x :: xs =>
    match lastIdxOf c xs with
    | some i => some (i + 1)
    | none => if x == c then some 0 else none

/-- The extension component of `os.path.splitext` (posix rules):
the suffix from the last `'.'` after the last `'/'`, provided at least
one non-dot character stands between them; leading dots of the base
name never start an extension. -/
def splitextExt (p : String) : String :=
  let l := p.data
  let sepI : Int := match lastIdxOf '/' l with
    | some i => (i : Int)
    | none => -1
  let dotI : Int := match lastIdxOf '.' l with
    | some i => (i : Int)
    | none => -1
  if sepI < dotI then
    let start := (sepI + 1).toNat
    let mid := (l.drop start).take (dotI.toNat - start)
    if mid.any (fun ch => ch != '.') then String.mk (l.drop dotI.toNat)
    else ""
  else ""

/-- `os.path.basename`: the part after the last `'/'`. -/
def basename (p : String) : String :=
  match lastIdxOf '/' p.data with
  | some i => String.mk (p.data.drop (i + 1))
  | none => p

/-! ## `get_hdf_data` (broh5/lib/utilities.py, lines 53-95)

An HDF5 entry is a group or a dataset.  A dataset is modelled by its
h5py dtype kind together with its payload; `bytes.decode("utf-8")` is
the identity in the embedding (payloads carry decoded strings). -/

/-- Numeric dtype kinds `'i'`, `'f'`, `'u'` of numpy. -/
inductive NumKind where
  | i : NumKind
  | f : NumKind
  | u : NumKind
deriving DecidableEq, Repr

/-- String-valued dataset payload: a scalar (shape `()`) or a 1d array. -/
inductive StrData where
  | s0 : String → StrData
  | s1 : List String → StrData
deriving DecidableEq, Repr

/-- Boolean dataset payload: a scalar (shape `()`) or a 1d array. -/
inductive BoolData where
  | b0 : Bool → BoolData
  | b1 : List Bool → BoolData
deriving DecidableEq, Repr

/-- Numeric dataset payload: scalar, 1d, 2d, 3d, or higher rank
(for rank > 3 only the shape matters to the viewer). -/
inductive NumData where
  | n0 : ℚ → NumData
  | n1 : List ℚ → NumData
  | n2 : Mat → NumData
  | n3 : Arr3 → NumData
  | nH : List Nat → NumData
deriving DecidableEq, Repr

/-- An entry of an HDF5 file as `get_hdf_data` distinguishes them:
a group, or a dataset of one of the dtype kinds the code inspects
(`'S'`, `'U'`, vlen str, vlen bytes, `'i'`/`'f'`/`'u'`, `'b'`, other). -/
inductive HEntry where
  | group : HEntry
  | fixedBytes : StrData → HEntry
  | fixedUnicode : StrData → HEntry
  | vlenStr : StrData → HEntry
  | vlenBytes : StrData → HEntry
  | numeric : NumKind → NumData → HEntry
  | boolean : BoolData → HEntry
  | otherDtype : HEntry
deriving DecidableEq, Repr

/-- numpy shape of a string payload. -/
def strShape : StrData → List Nat
  | .s0 _ => []
  | .s1 l => [l.length]

/-- The list of strings held by a string payload. -/
def strList : StrData → List String
  | .s0 s => [s]
  | .s1 l => l

/-- numpy shape of a numeric payload (first rows fix the trailing
dimensions; arrays are assumed rectangular). -/
def numShape : NumData → List Nat
  | .n0 _ => []
  | .n1 l => [l.length]
  | .n2 m => [m.length, (m.headD []).length]
  | .n3 c => [c.length, (c.headD []).length, ((c.headD []).headD []).length]
  | .nH sh => sh

/-- Numeric payload flattened to a row-major list. -/
def numFlat : NumData → List ℚ
  | .n0 x => [x]
  | .n1 l => l
  | .n2 m => m.flatten
  | .n3 c => (c.map List.flatten).flatten
  | .nH _ => []

/-- `item.size`: product of the shape (1 for shape `()`). -/
def sizeOfShape (sh : List Nat) : Nat := sh.prod

/-- The `value` component returned by `get_hdf_data`. -/
inductive HVal where
  | none : HVal
  | str : String → HVal
  | num : ℚ → HVal
  | shp : List Nat → HVal
  | strs : List String → HVal
deriving DecidableEq, Repr

/-- Error message of `int()` applied to a numpy array of size ≠ 1. -/
def intCastErr : String :=
  "TypeError: only length-1 arrays can be converted to Python scalars"

/-- `get_hdf_data(file_path, dataset_path)` (utilities.py 53-95).
The opened file is a finite map from full paths to entries; `dataset_path
not in f` is lookup failure.  A scalar drawn from a size-1 array is
modelled by its single element.  `int()` on a boolean array of size ≠ 1
raises, every other branch returns normally. -/
def get_hdf_data (file : List (String × HEntry)) (dataset_path : String) :
    Except String (String × HVal) :=
  match file.lookup dataset_path with
  | none => .ok ("not path", HVal.none)
  | some HEntry.group => .ok ("group", HVal.none)
  | some (HEntry.fixedBytes d) =>
    -- kind 'S': size 1 → decoded single string, otherwise decoded list
    if sizeOfShape (strShape d) == 1 then
      .ok ("string", HVal.str ((strList d).headD ""))
    else
      .ok ("array", HVal.strs (strList d))
  | some (HEntry.fixedUnicode d) =>
    -- kind 'U': size 1 → the value `item[()]` itself, otherwise `list(data)`
    if sizeOfShape (strShape d) == 1 then
      .ok ("string", match d with
        | .s0 s => HVal.str s
        | .s1 l => HVal.strs l)
    else
      .ok ("array", HVal.strs (strList d))
  | some (HEntry.vlenStr d) =>
    -- vlen str: a scalar stays, an array is joined to one string
    (match d with
     | .s0 s => .ok ("string", HVal.str s)
     | .s1 l => .ok ("string", HVal.str (String.join l)))
  | some (HEntry.vlenBytes d) =>
    (match d with
     | .s0 s => .ok ("string", HVal.str s)
     | .s1 l => .ok ("string", HVal.str (String.join l)))
  | some (HEntry.numeric _ d) =>
    if numShape d == ([] : List Nat) || sizeOfShape (numShape d) == 1 then
      .ok ("number", HVal.num ((numFlat d).headD 0))
    else
      .ok ("array", HVal.shp (numShape d))
  | some (HEntry.boolean d) =>
    (match d with
     | .b0 b => .ok ("boolean", HVal.num (if b then 1 else 0))
     | .b1 l =>
       if l.length == 1 then
         .ok ("boolean", HVal.num (if l.headD false then 1 else 0))
       else
         .error intCastErr)
  | some HEntry.otherDtype => .ok ("unknown", HVal.none)

/-! ## HDF tree → nested dictionary (utilities.py, lines 28-50)

`__recurse` walks the open file; `hdf_tree_to_dict` wraps it in a
`try/except` and relabels the root. -/

/-- An h5py object: a dataset or a group with named members. -/
inductive HObj where
  | dset : HObj
  | group : List (String × HObj) → HObj

/-- A node of the nested dictionary produced by `__recurse`: the keys
`"id"`, `"label"` and (for groups only) `"children"`. -/
inductive TNode where
  | mk : String → String → Option (List TNode) → TNode

/-- The `"id"` entry of a node. -/
def TNode.id : TNode → String
  | .mk i _ _ => i

/-- The `"label"` entry of a node. -/
def TNode.label : TNode → String
  | .mk _ l _ => l

/-- The `"children"` entry of a node, when present. -/
def TNode.children : TNode → Option (List TNode)
  | .mk _ _ c => c

/-- `current_path = f"{parent_path}/{name}" if parent_path else name`. -/
def joinPath (parent name : String) : String :=
  if parent ≠ "" then parent ++ "/" ++ name else name

mutual

/-- `__recurse(parent_path, name, obj)` (utilities.py 28-36), for one
object; the code wraps every node in a singleton list and flattens the
children lists, so the list structure reduces to one node per member. -/
def recNode (parent name : String) : HObj → TNode
  | .dset => .mk name (joinPath parent name) none
  | .group cs =>
    .mk name (joinPath parent name) (some (recChildren (joinPath parent name) cs))

/-- The flattened children lists of `__recurse` on a group. -/
def recChildren (cur : String) : List (String × HObj) → List TNode
  | [] => []
  | (k, o) :: rest => recNode cur k o :: recChildren cur rest

end

/-- `hdf_tree_to_dict(hdf_file)` (utilities.py 39-50): open the file
(fallible effect passed in), recurse from the root, relabel entry 0
with the file's base name and label `"/"`; the whole body sits in a
`try/except` that returns the caught exception object. -/
def hdf_tree_to_dict (hdf_file : String) (openStep : Except String HObj) :
    Except String (List TNode ⊕ String) :=
  match (do
    let root ← openStep
    let r := recNode "" "" root
    pure (TNode.mk (basename hdf_file) "/" r.children) : Except String TNode) with
  | .ok r => .ok (Sum.inl [r])
  | .error e => .ok (Sum.inr e)

/-- Descend a produced tree along a list of child indices. -/
def getNode : TNode → List Nat → Option TNode
  | t, [] => some t
  | t, i :: p =>
    match t.children with
    | none => none
    | some cs =>
      match cs.get? i with
      | none => none
      | some c => getNode c p

/-- The `i`-th named member of an h5py object. -/
def childAt : HObj → Nat → Option (String × HObj)
  | .group cs, i => cs.get? i
  | .dset, _ => none

/-- Walk the source object along a list of child indices, forming the
hierarchical path exactly as `__recurse` passes it down: the result is
`(parent_path, name, object)` at the end of the walk. -/
def walkObj (parent name : String) (obj : HObj) : List Nat → Option (String × String × HObj)
  | [] => some (parent, name, obj)
  | i :: p =>
    match childAt obj i with
    | none => none
    | some (k, c) => walkObj (joinPath parent name) k c p

/-! ## `format_table_from_array` (utilities.py, lines 98-116) -/

/-- A 1d or 2d numpy array handed to the table/plot path. -/
inductive Arr12 where
  | a1 : List ℚ → Arr12
  | a2 : Mat → Arr12
deriving DecidableEq, Repr

/-- `np.expand_dims(data, 1)` on 1d input: one column per element;
2d input is left alone. -/
def expand1 : Arr12 → Mat
  | .a1 l => l.map (fun x => [x])
  | .a2 m => m

/-- Name of column `j` of the table (`"Column " + str(j)`); the code
stores the same string under `name`, `label` and `field`. -/
def colName (j : Nat) : String := "Column " ++ toString j

/-- A row of the table: the ordered `(field, value)` pairs of the dict. -/
abbrev TRow := List (String × ℚ)

/-- `format_table_from_array(data)` (utilities.py 98-116): expand 1d
input to one column, read `(height, width)` from the shape, refuse
tables larger than 1000×1000 with `(None, None)`, otherwise prepend an
index column and build per-row dicts keyed by the column names. -/
def format_table_from_array (data : Arr12) :
    Option (List TRow) × Option (List String) :=
  let d := expand1 data
  let height := d.length
  let width := (d.headD []).length
  if height > 1000 && width > 1000 then
    (none, none)
  else
    -- np.insert(data, 0, np.arange(height), axis=1)
    let fm := d.enum.map (fun p => ((p.1 : ℚ)) :: p.2)
    let columns := "Index" :: (List.range width).map colName
    let rows := fm.map (fun frow =>
      (List.range (width + 1)).map (fun j => (columns.getD j "", frow.getD j 0)))
    (some rows, some columns)

/-! ## `save_image` and `save_table` (utilities.py, lines 119-145) -/

/-- What `Image.fromarray` receives: the raw matrix (tif/tiff path) or
the uint8-stretched matrix (every other extension). -/
inductive SavedMat where
  | raw : Mat → SavedMat
  | bytes : List (List Nat) → SavedMat
deriving DecidableEq, Repr

/-- The contrast stretch `np.uint8(255.0 * (mat - np.min(mat)) /
(np.max(mat) - np.min(mat)))` (utilities.py 125-126); `np.min` / `np.max`
raise on a zero-size array. -/
def normalizeMat (mat : Mat) : Except String (List (List Nat)) := do
  let mn ← npMin mat
  let mx ← npMax mat
  pure (mat.map (fun row => row.map (fun x => toUint8 (255 * (x - mn) / (mx - mn)))))

/-- The matrix handed to `Image.fromarray` by `save_image`
(utilities.py 123-127): unmodified for `.tif`/`.tiff`, byte-range
stretched for every other extension. -/
def save_image_processed (file_path : String) (mat : Mat) : Except String SavedMat :=
  let file_ext := splitextExt file_path
  if !(file_ext == ".tif" || file_ext == ".tiff") then
    (normalizeMat mat).map SavedMat.bytes
  else
    .ok (SavedMat.raw mat)

/-- `save_image(file_path, mat)` (utilities.py 119-131).  The stretch
and `Image.fromarray` run before the `try` block, so their failures
propagate; only `image.save` is caught, its exception object being
returned (`None` on success). -/
def save_image (file_path : String) (mat : Mat) (saveStep : Except String Unit) :
    Except String (Option String) := do
  let _m ← save_image_processed file_path mat
  match saveStep with
  | .ok _ => pure none
  | .error e => pure (some e)

/-- `save_table(file_path, data)` (utilities.py 134-145): the whole
body — opening the file, expanding 1d data, writing the rows — sits in
one `try/except` returning the caught exception (`None` on success). -/
def save_table (data : Arr12) (openStep writeStep : Except String Unit) :
    Except String (Option String) :=
  match (do
    let _ ← openStep
    let _rows := expand1 data
    let _ ← writeStep
    pure () : Except String Unit) with
  | .ok _ => .ok none
  | .error e => .ok (some e)

/-- `true` iff the computation did not raise. -/
def noRaise {α : Type} : Except String α → Bool
  | .ok _ => true
  | .error _ => false

/-! ## UI state of the monolithic GUI (broh5_mono/main.py)

The widget fields the display functions read or write.  Lists of
choices come first, mirroring the module constants. -/

/-- `MARKER_LIST` (main.py 14). -/
def MARKER_LIST : List String := [",", ".", "o", "x"]

/-- `CMAP_LIST` (main.py 15). -/
def CMAP_LIST : List String := ["gray", "inferno", "afmhot", "viridis", "magma"]

/-- `AXIS_LIST` (main.py 16). -/
def AXIS_LIST : List Nat := [0, 1, 2]

/-- `DISPLAY_TYPE` (main.py 18). -/
def DISPLAY_TYPE : List String := ["plot", "table"]

/-- What the pyplot widget currently shows.  The pixel data and plot
series handed to matplotlib are abstracted to the kind of drawing. -/
inductive PlotContent where
  | cleared : PlotContent
  | line : PlotContent
  | image2d : PlotContent
  | image3d : PlotContent
deriving DecidableEq, Repr

/-- The UI state of `main()`: label texts, select values, slider values
and bounds, enabled flags, widget visibility, and the module globals
`rows`, `columns`, `image`, `data_1d_2d`, `current_slice`. -/
structure UiState where
  hdfKeyText : String
  filePathText : String
  hdfValueText : String
  axisVal : Nat
  cmapVal : String
  dispTypeVal : String
  markerVal : String
  mainVal : Nat
  mainMax : Nat
  minVal : Nat
  maxVal : Nat
  mainEnabled : Bool
  minEnabled : Bool
  maxEnabled : Bool
  axisEnabled : Bool
  cmapEnabled : Bool
  dispTypeEnabled : Bool
  markerEnabled : Bool
  saveImageEnabled : Bool
  saveDataEnabled : Bool
  tableVisible : Bool
  plotVisible : Bool
  rows : Option (List TRow)
  columns : Option (List String)
  image : Option Mat
  data1d2d : Option Arr12
  currentSlice : Option (Nat × Nat × String)
  plotContent : PlotContent
deriving DecidableEq, Repr

/-- `disable_sliders()` (main.py 45-52). -/
def disable_sliders (s : UiState) : UiState :=
  { s with mainVal := 0, mainEnabled := false,
           minVal := 0, minEnabled := false,
           maxVal := 255, maxEnabled := false }

/-- `enable_ui_elements_3d_data()` (main.py 54-74). -/
def enable_ui_elements_3d_data (s : UiState) : UiState :=
  { s with mainEnabled := true, maxEnabled := true, minEnabled := true,
           plotVisible := true, axisEnabled := true, cmapEnabled := true,
           saveImageEnabled := true,
           tableVisible := false, dispTypeEnabled := false,
           markerEnabled := false, saveDataEnabled := false,
           data1d2d := none }

/-- `enable_ui_elements_1d_2d_data()` (main.py 76-94). -/
def enable_ui_elements_1d_2d_data (s : UiState) : UiState :=
  let s := { s with image := none }
  let s := disable_sliders s
  { s with axisVal := AXIS_LIST.headD 0, cmapVal := CMAP_LIST.headD "",
           axisEnabled := false, cmapEnabled := false,
           saveImageEnabled := false,
           dispTypeEnabled := true, markerEnabled := true,
           saveDataEnabled := true }

/-- `reset(keep_display=False)` (main.py 96-117). -/
def reset (keep_display : Bool) (s : UiState) : UiState :=
  let s := if !keep_display then
      { s with hdfKeyText := "", filePathText := "", hdfValueText := "" }
    else s
  let s := { s with axisVal := AXIS_LIST.headD 0, cmapVal := CMAP_LIST.headD "",
                    dispTypeVal := DISPLAY_TYPE.headD "",
                    markerVal := MARKER_LIST.headD "",
                    axisEnabled := false, cmapEnabled := false,
                    dispTypeEnabled := false, markerEnabled := false }
  let s := disable_sliders s
  { s with rows := none, columns := none, image := none, data1d2d := none,
           tableVisible := false, plotVisible := true,
           saveImageEnabled := false, saveDataEnabled := false }

/-- `display_1d_2d_data(data_obj, disp_type)` (main.py 180-227): enable
the 1d/2d widgets; in table mode show the table widget and rebuild its
rows/columns; otherwise show the pyplot widget, drawing a line plot for
1d data and for 2d data with a dimension of size 2, and an image for
any other 2d data.  The plotted series are abstracted to
`PlotContent`. -/
def display_1d_2d_data (data_obj : Arr12) (disp_type : String) (s : UiState) :
    UiState :=
  let s := enable_ui_elements_1d_2d_data s
  let s := { s with data1d2d := some data_obj }
  if disp_type == "table" then
    let s := { s with plotVisible := false, tableVisible := true }
    let rc := format_table_from_array data_obj
    { s with rows := rc.1, columns := rc.2 }
  else
    let s := { s with plotVisible := true, tableVisible := false }
    match data_obj with
    | .a2 m =>
      let height := m.length
      let width := (m.headD []).length
      if height == 2 then { s with plotContent := .line }
      else if width == 2 then { s with plotContent := .line }
      else { s with plotContent := .image2d }
    | .a1 _ => { s with plotContent := .line }

/-! ## `display_3d_data` (main.py, lines 124-178) -/

/-- `(depth, height, width) = data_obj.shape` for a rectangular 3d array. -/
def shape3 (a : Arr3) : Nat × Nat × Nat :=
  (a.length, (a.headD []).length, ((a.headD []).headD []).length)

/-- `data_obj[d]`. -/
def sliceAxis0 (a : Arr3) (d : Nat) : Mat := a.getD d []

/-- `data_obj[:, d, :]`. -/
def sliceAxis1 (a : Arr3) (d : Nat) : Mat := a.map (fun plane => plane.getD d [])

/-- `data_obj[:, :, d]`. -/
def sliceAxis2 (a : Arr3) (d : Nat) : Mat :=
  a.map (fun plane => plane.map (fun row => row.getD d 0))

/-- The clipping range of the contrast branch (main.py 161-165): `some
(lo, hi)` when contrast adjustment is active (`min_val > 0 or max_val <
255`), with `min_val` reset to `np.clip(max_val - 1, 0, 254)` whenever
it is not below `max_val`; `none` when contrast is inactive. -/
def effClipRange (min_val max_val : Nat) : Option (Nat × Nat) :=
  if min_val > 0 || max_val < 255 then
    let lo := if min_val ≥ max_val then min (max (max_val - 1) 0) 254 else min_val
    some (lo, max_val)
  else
    none

/-- The length of the axis selected for slicing. -/
def axisLen (depth height width axisVal : Nat) : Nat :=
  if axisVal == 2 then width
  else if axisVal == 1 then height
  else depth

/-- `max_val` of `display_3d_data` (main.py 129-134): the slider bound
for the selected axis. -/
def sliderBound (depth height width axisVal : Nat) : Nat :=
  if axisVal == 2 then width - 1
  else if axisVal == 1 then height - 1
  else depth - 1

/-- main.py 135-137: refresh the slider's `max` prop when it changed. -/
def updateSliderMax (max_val : Nat) (s : UiState) : UiState :=
  if s.mainMax != max_val then { s with mainMax := max_val } else s

/-- main.py 138-141: clamp the slider value to `max_val`. -/
def clampSlider (max_val : Nat) (s : UiState) : UiState :=
  if s.mainVal > max_val then { s with mainVal := max_val } else s

/-- main.py 142-160: recompute the cached slice when the
`(value, axis, file)` triple changed or no image is cached, falling
back to axis 0 (with the slider reset to 0) for the expensive axis-2
slicing of large data. -/
def updateSlice (data_obj : Arr3) (depth height d_pos : Nat) (s : UiState) : UiState :=
  let new_slice := (s.mainVal, s.axisVal, s.filePathText)
  if some new_slice != s.currentSlice || s.image.isNone then
    let s := { s with currentSlice := some new_slice }
    if s.axisVal == 2 then
      if depth > 1000 && height > 1000 then
        { s with axisVal := 0, mainVal := 0,
                 image := some (sliceAxis0 data_obj 0) }
      else
        { s with image := some (sliceAxis2 data_obj d_pos) }
    else if s.axisVal == 1 then
      { s with image := some (sliceAxis1 data_obj d_pos) }
    else
      { s with image := some (sliceAxis0 data_obj d_pos) }
  else s

/-- main.py 161-165: when contrast is active, store the adjusted
minimum back into the min slider. -/
def applyContrast (s : UiState) : UiState :=
  match effClipRange s.minVal s.maxVal with
  | some lohi =>
    if s.minVal ≥ s.maxVal then { s with minVal := lohi.1 } else s
  | none => s

/-- `display_3d_data(data_obj)` (main.py 124-178): enable the 3d
widgets, fit the slider bound to the selected axis, clamp the slider,
recompute the slice, then apply the contrast branch and draw.  The
stretched pixels handed to `plt.imshow` are abstracted to
`PlotContent.image3d`. -/
def display_3d_data (data_obj : Arr3) (s : UiState) : UiState :=
  let s := enable_ui_elements_3d_data s
  let dhw := shape3 data_obj
  let max_val := sliderBound dhw.1 dhw.2.1 dhw.2.2 s.axisVal
  let s := updateSliderMax max_val s
  let d_pos := s.mainVal
  let s := clampSlider max_val s
  let d_pos := if d_pos > max_val then max_val else d_pos
  let s := updateSlice data_obj dhw.1 dhw.2.1 d_pos s
  let s := applyContrast s
  { s with plotContent := .image3d }

/-! ## The display dispatch of `show_data` (main.py, lines 229-281) -/

/-- The display states of the viewer, in the vocabulary of the spec.
1d data has the single state `array1d` whether tabulated or plotted. -/
inductive DisplayState where
  | empty : DisplayState
  | scalar : DisplayState
  | array1d : DisplayState
  | array2dTable : DisplayState
  | array2dPlot : DisplayState
  | array2dImage : DisplayState
  | array3dImage : DisplayState
deriving DecidableEq, Repr

/-- The dispatch of `show_data` (main.py 242-272) combined with the
plot/table branch of `display_1d_2d_data` (main.py 185-211), for a
dataset classified by `get_hdf_data`: scalar types show text; a numeric
array (whose `value` is its shape) is routed by rank, by the requested
display mode, and — for rank 2 in plot mode — by whether one of its
first two dimensions equals 2 (`plt.plot` against `plt.imshow`); rank
above 3 drives no display. -/
def show_data_display (data_type : String) (shape : List Nat)
    (disp_type : String) : DisplayState :=
  if data_type == "string" || data_type == "number" || data_type == "boolean" then
    .scalar
  else if data_type == "array" then
    let dim := shape.length
    if dim == 3 then .array3dImage
    else if dim < 3 then
      if disp_type == "table" then
        (if dim == 1 then .array1d else .array2dTable)
      else
        match shape with
        | [_] => .array1d
        | [h, w] =>
          if h == 2 then .array2dPlot
          else if w == 2 then .array2dPlot
          else .array2dImage
        | _ => .empty
    else .empty
  else .empty

/-! ## The export handlers `save_data` / `save_image` of the GUI
(main.py, lines 368-392 and 403-424) -/

/-- The externally visible outcome of an export handler. -/
inductive SaveAction where
  | nothing : SaveAction
  | notifyExt : SaveAction
  | savedTable : String → SaveAction
  | savedImage : String → SaveAction
deriving DecidableEq, Repr

/-- The `save_data` handler (main.py 403-424): with a chosen path and
displayed 1d/2d data, an empty extension becomes `.csv` (appended to
the path); any extension other than `.csv` is rejected with a
notification; otherwise the table writer runs on the path. -/
def save_data_action (file_path : Option String) (hasData : Bool) : SaveAction :=
  match file_path with
  | none => .nothing
  | some fp =>
    if fp == "" || !hasData then .nothing
    else
      let file_ext := splitextExt fp
      let ext_fp := if file_ext == "" then (".csv", fp ++ ".csv") else (file_ext, fp)
      if ext_fp.1 != ".csv" then .notifyExt
      else .savedTable ext_fp.2

/-- The `save_image` handler (main.py 368-392): with a chosen path and
a displayed image, only `.tif`, `.jpg`, `.png` and `.csv` are accepted;
`.csv` routes to the table writer, the other three to the image
writer. -/
def save_image_action (file_path : Option String) (hasImage : Bool) : SaveAction :=
  match file_path with
  | none => .nothing
  | some fp =>
    if fp == "" || !hasImage then .nothing
    else
      let file_ext := splitextExt fp
      if file_ext != ".tif" && file_ext != ".jpg"
          && file_ext != ".png" && file_ext != ".csv" then
        .notifyExt
      else if file_ext == ".csv" then .savedTable fp
      else .savedImage fp

/-! ## Theorems -/

/-! ### Field-preservation lemmas for the `display_3d_data` pipeline -/

theorem updateSliderMax_fields (m : Nat) (s : UiState) :
    (updateSliderMax m s).tableVisible = s.tableVisible ∧
    (updateSliderMax m s).plotVisible = s.plotVisible ∧
    (updateSliderMax m s).mainVal = s.mainVal ∧
    (updateSliderMax m s).axisVal = s.axisVal ∧
    (updateSliderMax m s).minVal = s.minVal ∧
    (updateSliderMax m s).maxVal = s.maxVal := by
  unfold updateSliderMax
  split <;> exact ⟨rfl, rfl, rfl, rfl, rfl, rfl⟩

theorem clampSlider_fields (m : Nat) (s : UiState) :
    (clampSlider m s).tableVisible = s.tableVisible ∧
    (clampSlider m s).plotVisible = s.plotVisible ∧
    (clampSlider m s).axisVal = s.axisVal ∧
    (clampSlider m s).minVal = s.minVal ∧
    (clampSlider m s).maxVal = s.maxVal := by
  unfold clampSlider
  split <;> exact ⟨rfl, rfl, rfl, rfl, rfl⟩

theorem clampSlider_mainVal_le (m : Nat) (s : UiState) :
    (clampSlider m s).mainVal ≤ m := by
  unfold clampSlider
  split
  · exact Nat.le_refl m
  · next h => exact Nat.le_of_not_lt h

theorem updateSlice_fields (a : Arr3) (dep hei dp : Nat) (s : UiState) :
    (updateSlice a dep hei dp s).tableVisible = s.tableVisible ∧
    (updateSlice a dep hei dp s).plotVisible = s.plotVisible ∧
    (updateSlice a dep hei dp s).minVal = s.minVal ∧
    (updateSlice a dep hei dp s).maxVal = s.maxVal := by
  simp only [updateSlice]
  (repeat' split) <;> exact ⟨rfl, rfl, rfl, rfl⟩

/-- `updateSlice` either falls back to axis 0 with the slider at 0, or
leaves the axis and the slider value unchanged. -/
theorem updateSlice_main_axis (a : Arr3) (dep hei dp : Nat) (s : UiState) :
    ((updateSlice a dep hei dp s).axisVal = 0 ∧
     (updateSlice a dep hei dp s).mainVal = 0) ∨
    ((updateSlice a dep hei dp s).axisVal = s.axisVal ∧
     (updateSlice a dep hei dp s).mainVal = s.mainVal) := by
  simp only [updateSlice]
  (repeat' split) <;> first
    | exact Or.inl ⟨rfl, rfl⟩
    | exact Or.inr ⟨rfl, rfl⟩

theorem applyContrast_fields (s : UiState) :
    (applyContrast s).tableVisible = s.tableVisible ∧
    (applyContrast s).plotVisible = s.plotVisible ∧
    (applyContrast s).mainVal = s.mainVal ∧
    (applyContrast s).axisVal = s.axisVal := by
  simp only [applyContrast]
  (repeat' split) <;> exact ⟨rfl, rfl, rfl, rfl⟩

/-- The table widget is visible after `display_1d_2d_data` exactly in
table mode. -/
theorem display_1d_2d_data_tableVisible (d : Arr12) (mode : String) (s : UiState) :
    (display_1d_2d_data d mode s).tableVisible = (mode == "table") := by
  unfold display_1d_2d_data enable_ui_elements_1d_2d_data disable_sliders
  cases hb : (mode == "table") <;>
    simp only [hb, Bool.false_eq_true, Bool.true_eq_false, if_true, if_false, reduceIte] <;>
    cases d <;> (try rfl) <;> (repeat' split) <;> rfl

/-- The pyplot widget is visible after `display_1d_2d_data` exactly
outside table mode. -/
theorem display_1d_2d_data_plotVisible (d : Arr12) (mode : String) (s : UiState) :
    (display_1d_2d_data d mode s).plotVisible = !(mode == "table") := by
  unfold display_1d_2d_data enable_ui_elements_1d_2d_data disable_sliders
  cases hb : (mode == "table") <;>
    simp only [hb, Bool.false_eq_true, Bool.true_eq_false, if_true, if_false, reduceIte] <;>
    cases d <;> (try rfl) <;> (repeat' split) <;> rfl

/-- `display_3d_data` hides the table widget and shows the pyplot
widget. -/
theorem display_3d_data_visibility (d : Arr3) (s : UiState) :
    (display_3d_data d s).tableVisible = false ∧
    (display_3d_data d s).plotVisible = true := by
  unfold display_3d_data
  constructor
  · show (applyContrast (updateSlice _ _ _ _ _)).tableVisible = false
    rw [(applyContrast_fields _).1, (updateSlice_fields _ _ _ _ _).1,
        (clampSlider_fields _ _).1, (updateSliderMax_fields _ _).1]
    rfl
  · show (applyContrast (updateSlice _ _ _ _ _)).plotVisible = true
    rw [(applyContrast_fields _).2.1, (updateSlice_fields _ _ _ _ _).2.1,
        (clampSlider_fields _ _).2.1, (updateSliderMax_fields _ _).2.1]
    rfl


/-- C3: the display modes are mutually exclusive: after
`display_1d_2d_data`, `display_3d_data` (which routes through
`enable_ui_elements_3d_data`), `enable_ui_elements_3d_data` itself, or
`reset`, the table widget and the pyplot widget are never both
visible. -/
theorem display_modes_mutually_exclusive (s : UiState) (d12 : Arr12)
    (mode : String) (d3 : Arr3) (keep : Bool) :
    ((display_1d_2d_data d12 mode s).tableVisible &&
       (display_1d_2d_data d12 mode s).plotVisible) = false ∧
    ((display_3d_data d3 s).tableVisible &&
       (display_3d_data d3 s).plotVisible) = false ∧
    ((enable_ui_elements_3d_data s).tableVisible &&
       (enable_ui_elements_3d_data s).plotVisible) = false ∧
    ((reset keep s).tableVisible && (reset keep s).plotVisible) = false := by
  refine ⟨?_, ?_, ?_, ?_⟩
  · rw [display_1d_2d_data_tableVisible, display_1d_2d_data_plotVisible]
    exact Bool.and_not_self _
  · rw [(display_3d_data_visibility d3 s).1]
    exact Bool.false_and _
  · rfl
  · rfl

/-! ### C10: invariants of `display_3d_data` -/

/-- The slider bound is the selected axis length minus one. -/
theorem sliderBound_eq (dep hei wid a : Nat) :
    sliderBound dep hei wid a = axisLen dep hei wid a - 1 := by
  unfold sliderBound axisLen
  by_cases h2 : (a == 2) = true
  · simp [h2]
  · by_cases h1 : (a == 1) = true <;> simp [h2, h1]

/-- The first component is below the second, vacuously for `none`. -/
def pairLt : Option (Nat × Nat) → Prop
  | some p => p.1 < p.2
  | none => True

/-- Whenever contrast adjustment is active, the effective clipping
minimum is strictly below the effective maximum, provided the max
slider sits at its widget minimum 1 or above. -/
theorem effClipRange_lt (minv maxv : Nat) (h : 1 ≤ maxv) :
    pairLt (effClipRange minv maxv) := by
  unfold effClipRange
  split
  · show (if minv ≥ maxv then min (max (maxv - 1) 0) 254 else minv) < maxv
    split
    · have h1 : min (max (maxv - 1) 0) 254 ≤ maxv - 1 := by
        rw [Nat.max_zero]
        exact Nat.min_le_left _ _
      omega
    · next hge => omega
  · trivial

/-- After the `display_3d_data` pipeline (slider-bound fit, clamp,
slice update, contrast), the slider value is at most the selected axis
length minus one, the axis being read from the final state. -/
theorem pipeline_main_le (d : Arr3) (t : UiState) (dp : Nat) :
    (applyContrast (updateSlice d (shape3 d).1 (shape3 d).2.1 dp
       (clampSlider (sliderBound (shape3 d).1 (shape3 d).2.1 (shape3 d).2.2 t.axisVal)
         (updateSliderMax (sliderBound (shape3 d).1 (shape3 d).2.1 (shape3 d).2.2 t.axisVal) t)))).mainVal ≤
    axisLen (shape3 d).1 (shape3 d).2.1 (shape3 d).2.2
      (applyContrast (updateSlice d (shape3 d).1 (shape3 d).2.1 dp
        (clampSlider (sliderBound (shape3 d).1 (shape3 d).2.1 (shape3 d).2.2 t.axisVal)
          (updateSliderMax (sliderBound (shape3 d).1 (shape3 d).2.1 (shape3 d).2.2 t.axisVal) t)))).axisVal - 1 := by
  set mv := sliderBound (shape3 d).1 (shape3 d).2.1 (shape3 d).2.2 t.axisVal with hmv
  set u := clampSlider mv (updateSliderMax mv t) with hu
  rw [(applyContrast_fields _).2.2.1, (applyContrast_fields _).2.2.2]
  rcases updateSlice_main_axis d (shape3 d).1 (shape3 d).2.1 dp u with ⟨ha, hm⟩ | ⟨ha, hm⟩
  · rw [ha, hm]
    exact Nat.zero_le _
  · rw [ha, hm, hu]
    have h1 : (clampSlider mv (updateSliderMax mv t)).axisVal = t.axisVal := by
      rw [(clampSlider_fields _ _).2.2.1, (updateSliderMax_fields _ _).2.2.2.1]
    rw [h1]
    calc (clampSlider mv (updateSliderMax mv t)).mainVal
        ≤ mv := clampSlider_mainVal_le _ _
      _ = axisLen (shape3 d).1 (shape3 d).2.1 (shape3 d).2.2 t.axisVal - 1 := by
          rw [hmv, sliderBound_eq]

/-- C10: after `display_3d_data`, the slice slider's value is at most
the selected axis length minus one; and whenever contrast adjustment is
active (min slider above 0 or max slider below 255), the effective
clipping minimum is strictly below the effective maximum — the widget
keeps the max slider at 1 or above. -/
theorem display_3d_data_invariants (d : Arr3) (s : UiState) (hmax : 1 ≤ s.maxVal) :
    (display_3d_data d s).mainVal ≤
      axisLen (shape3 d).1 (shape3 d).2.1 (shape3 d).2.2
        (display_3d_data d s).axisVal - 1 ∧
    pairLt (effClipRange s.minVal s.maxVal) :=
  ⟨pipeline_main_le d (enable_ui_elements_3d_data s) _,
   effClipRange_lt s.minVal s.maxVal hmax⟩

/-- A concrete UI state used to instantiate the invariants. -/
def uiSample : UiState :=
  { hdfKeyText := "", filePathText := "f.h5", hdfValueText := "",
    axisVal := 0, cmapVal := "gray", dispTypeVal := "plot", markerVal := ",",
    mainVal := 5, mainMax := 100, minVal := 10, maxVal := 255,
    mainEnabled := false, minEnabled := false, maxEnabled := false,
    axisEnabled := false, cmapEnabled := false, dispTypeEnabled := false,
    markerEnabled := false, saveImageEnabled := false, saveDataEnabled := false,
    tableVisible := false, plotVisible := true,
    rows := none, columns := none, image := none, data1d2d := none,
    currentSlice := none, plotContent := PlotContent.cleared }

/-- A concrete 2×2×2 dataset. -/
def arr3Sample : Arr3 := [[[1, 2], [3, 4]], [[5, 6], [7, 8]]]

/-- Witness for C10 at a concrete state and dataset. -/
theorem display_3d_data_invariants_witness :
    1 ≤ uiSample.maxVal ∧
    ((display_3d_data arr3Sample uiSample).mainVal ≤
       axisLen (shape3 arr3Sample).1 (shape3 arr3Sample).2.1 (shape3 arr3Sample).2.2
         (display_3d_data arr3Sample uiSample).axisVal - 1 ∧
     pairLt (effClipRange uiSample.minVal uiSample.maxVal)) :=
  ⟨by decide, display_3d_data_invariants arr3Sample uiSample (by decide)⟩

/-! ### C1: the display-state dispatch of `show_data` -/

/-- C1 counterexample: a 3×3 numeric array in plot mode drives the
image display, not the plot, while a 2×3 array of the same rank and
mode drives the plot — so the state is not a function of rank and mode
alone, and rank 2 with mode "plot" does not always drive a plot. -/
theorem show_data_display_rank2_plot_counterexample :
    show_data_display "array" [3, 3] "plot" = DisplayState.array2dImage ∧
    show_data_display "array" [3, 3] "plot" ≠ DisplayState.array2dPlot ∧
    show_data_display "array" [2, 3] "plot" = DisplayState.array2dPlot :=
  ⟨by decide, by decide, by decide⟩

/-- C1 amended: the display state is chosen from the scalar type tag,
the rank, the requested mode, and — for rank 2 in plot mode — whether
one of the two dimensions equals 2: scalars drive the text display;
rank 3 the 3d image; rank above 3 no display; rank 1 the 1d display;
rank 2 the table in table mode; and in plot mode the plot exactly when
a dimension equals 2, the 2d image otherwise. -/
theorem show_data_display_amended (t : String) (shape : List Nat) (mode : String) :
    (t = "string" ∨ t = "number" ∨ t = "boolean" →
      show_data_display t shape mode = DisplayState.scalar) ∧
    (t = "array" → shape.length = 3 →
      show_data_display t shape mode = DisplayState.array3dImage) ∧
    (t = "array" → 3 < shape.length →
      show_data_display t shape mode = DisplayState.empty) ∧
    (t = "array" → shape.length = 1 →
      show_data_display t shape mode = DisplayState.array1d) ∧
    (t = "array" → mode = "table" → shape.length = 2 →
      show_data_display t shape mode = DisplayState.array2dTable) ∧
    (∀ h w, t = "array" → mode ≠ "table" → shape = [h, w] →
      ((h = 2 ∨ w = 2) → show_data_display t shape mode = DisplayState.array2dPlot) ∧
      (h ≠ 2 → w ≠ 2 → show_data_display t shape mode = DisplayState.array2dImage)) := by
  refine ⟨?_, ?_, ?_, ?_, ?_, ?_⟩
  · rintro (rfl | rfl | rfl) <;> rfl
  · rintro rfl hl
    unfold show_data_display
    simp [hl]
  · rintro rfl hl
    unfold show_data_display
    have e3 : (shape.length == 3) = false := by simp; omega
    have l3 : ¬(shape.length < 3) := by omega
    simp [e3, l3]
  · rintro rfl hl
    unfold show_data_display
    rcases shape with _ | ⟨a, _ | ⟨b, rest⟩⟩ <;> simp_all
  · rintro rfl rfl hl
    unfold show_data_display
    rcases shape with _ | ⟨a, _ | ⟨b, rest⟩⟩ <;> simp_all
  · rintro h w rfl hm rfl
    have em : (mode == "table") = false := by
      simpa using hm
    constructor
    · rintro (rfl | rfl)
      · unfold show_data_display
        simp [em]
      · unfold show_data_display
        by_cases hh : (h == 2) = true <;> simp [em, hh]
    · intro hh hw
      have eh : (h == 2) = false := by simpa using hh
      have ew : (w == 2) = false := by simpa using hw
      unfold show_data_display
      simp [em, eh, ew]

/-- Witness for the amended C1 at concrete shapes and modes. -/
theorem show_data_display_amended_witness :
    show_data_display "array" [3, 3] "plot" = DisplayState.array2dImage ∧
    show_data_display "array" [2, 2] "plot" = DisplayState.array2dPlot ∧
    show_data_display "array" [7] "table" = DisplayState.array1d :=
  ⟨((show_data_display_amended "array" [3, 3] "plot").2.2.2.2.2 3 3 rfl
      (by decide) rfl).2 (by decide) (by decide),
   ((show_data_display_amended "array" [2, 2] "plot").2.2.2.2.2 2 2 rfl
      (by decide) rfl).1 (Or.inl rfl),
   (show_data_display_amended "array" [7] "table").2.2.2.1 rfl rfl⟩

/-! ### C2: the classification of `get_hdf_data` -/

/-- A file holding one fixed-length string dataset with two elements. -/
def strArrayFile : List (String × HEntry) :=
  [("d", HEntry.fixedBytes (StrData.s1 ["ab", "cd"]))]

/-- C2 counterexample: a fixed-length string dataset with more than one
element is classified `("array", list of decoded strings)`, not
`("string", decoded text)`. -/
theorem get_hdf_data_string_array_counterexample :
    get_hdf_data strArrayFile "d" =
      Except.ok ("array", HVal.strs ["ab", "cd"]) ∧
    "array" ≠ "string" :=
  ⟨rfl, by decide⟩

/-- C2 amended: `get_hdf_data` classifies an entry as follows — absent
path `("not path", None)`; group `("group", None)`; string data of size
one `("string", the decoded text)`; a fixed-length string dataset with
size other than one `("array", the decoded list)`; a variable-length
string dataset of any other size `("string", the concatenation)`; a
numeric dataset of shape `()` or size one `("number", its value)`; any
other numeric dataset `("array", its shape)`; a scalar boolean dataset
`("boolean", 0 or 1)` while a boolean dataset of size other than one
raises; anything else `("unknown", None)`. -/
theorem get_hdf_data_classification (f : List (String × HEntry)) (p : String) :
    (f.lookup p = none → get_hdf_data f p = Except.ok ("not path", HVal.none)) ∧
    (f.lookup p = some HEntry.group →
      get_hdf_data f p = Except.ok ("group", HVal.none)) ∧
    (∀ s, f.lookup p = some (HEntry.fixedBytes (StrData.s0 s)) →
      get_hdf_data f p = Except.ok ("string", HVal.str s)) ∧
    (∀ s, f.lookup p = some (HEntry.fixedBytes (StrData.s1 [s])) →
      get_hdf_data f p = Except.ok ("string", HVal.str s)) ∧
    (∀ l, f.lookup p = some (HEntry.fixedBytes (StrData.s1 l)) → l.length ≠ 1 →
      get_hdf_data f p = Except.ok ("array", HVal.strs l)) ∧
    (∀ s, f.lookup p = some (HEntry.vlenStr (StrData.s0 s)) →
      get_hdf_data f p = Except.ok ("string", HVal.str s)) ∧
    (∀ l, f.lookup p = some (HEntry.vlenStr (StrData.s1 l)) →
      get_hdf_data f p = Except.ok ("string", HVal.str (String.join l))) ∧
    (∀ k d, f.lookup p = some (HEntry.numeric k d) →
      (numShape d = [] ∨ sizeOfShape (numShape d) = 1) →
      get_hdf_data f p = Except.ok ("number", HVal.num ((numFlat d).headD 0))) ∧
    (∀ k d, f.lookup p = some (HEntry.numeric k d) →
      numShape d ≠ [] → sizeOfShape (numShape d) ≠ 1 →
      get_hdf_data f p = Except.ok ("array", HVal.shp (numShape d))) ∧
    (∀ b, f.lookup p = some (HEntry.boolean (BoolData.b0 b)) →
      get_hdf_data f p = Except.ok ("boolean", HVal.num (if b then 1 else 0))) ∧
    (∀ l, f.lookup p = some (HEntry.boolean (BoolData.b1 l)) → l.length ≠ 1 →
      get_hdf_data f p = Except.error intCastErr) ∧
    (f.lookup p = some HEntry.otherDtype →
      get_hdf_data f p = Except.ok ("unknown", HVal.none)) := by
  refine ⟨?_, ?_, ?_, ?_, ?_, ?_, ?_, ?_, ?_, ?_, ?_, ?_⟩
  · intro h
    unfold get_hdf_data
    rw [h]
  · intro h
    unfold get_hdf_data
    rw [h]
  · intro s h
    unfold get_hdf_data
    rw [h]
    rfl
  · intro s h
    unfold get_hdf_data
    rw [h]
    rfl
  · intro l h hl
    unfold get_hdf_data
    rw [h]
    have e1 : (sizeOfShape (strShape (StrData.s1 l)) == 1) = false := by
      simp [strShape, sizeOfShape, hl]
    simp [e1, strList]
  · intro s h
    unfold get_hdf_data
    rw [h]
  · intro l h
    unfold get_hdf_data
    rw [h]
  · intro k d h hsz
    unfold get_hdf_data
    rw [h]
    rcases hsz with h1 | h1 <;> simp [h1]
  · intro k d h h0 h1
    unfold get_hdf_data
    rw [h]
    simp [h0, h1]
  · intro b h
    unfold get_hdf_data
    rw [h]
  · intro l h hl
    unfold get_hdf_data
    rw [h]
    simp [hl]
  · intro h
    unfold get_hdf_data
    rw [h]

/-- A concrete file with a group, a 2×2 numeric dataset, a
variable-length string scalar and a boolean scalar. -/
def sampleFile : List (String × HEntry) :=
  [("g", HEntry.group),
   ("g/x", HEntry.numeric NumKind.f (NumData.n2 [[1, 2], [3, 4]])),
   ("g/s", HEntry.vlenStr (StrData.s0 "hello")),
   ("g/b", HEntry.boolean (BoolData.b0 true))]

/-- Witness for the amended C2 at concrete entries. -/
theorem get_hdf_data_classification_witness :
    get_hdf_data sampleFile "g" = Except.ok ("group", HVal.none) ∧
    get_hdf_data sampleFile "g/x" = Except.ok ("array", HVal.shp [2, 2]) ∧
    get_hdf_data sampleFile "g/s" = Except.ok ("string", HVal.str "hello") ∧
    get_hdf_data sampleFile "g/b" = Except.ok ("boolean", HVal.num 1) ∧
    get_hdf_data sampleFile "nope" = Except.ok ("not path", HVal.none) :=
  ⟨(get_hdf_data_classification sampleFile "g").2.1 rfl,
   (get_hdf_data_classification sampleFile "g/x").2.2.2.2.2.2.2.2.1
     NumKind.f (NumData.n2 [[1, 2], [3, 4]]) rfl (by decide) (by decide),
   (get_hdf_data_classification sampleFile "g/s").2.2.2.2.2.1 "hello" rfl,
   (get_hdf_data_classification sampleFile "g/b").2.2.2.2.2.2.2.2.2.1 true rfl,
   (get_hdf_data_classification sampleFile "nope").1 rfl⟩

/-! ### C6: the nested dictionary built by `hdf_tree_to_dict` -/

theorem recNode_id (parent name : String) (obj : HObj) :
    (recNode parent name obj).id = name := by
  cases obj <;> rfl

theorem recNode_label (parent name : String) (obj : HObj) :
    (recNode parent name obj).label = joinPath parent name := by
  cases obj <;> rfl

theorem recChildren_length (cur : String) (cs : List (String × HObj)) :
    (recChildren cur cs).length = cs.length := by
  induction cs with
  | nil => rfl
  | cons hd tl ih =>
    cases hd
    simp [recChildren, ih]

theorem joinPath_empty (name : String) : joinPath "" name = name := by
  simp [joinPath]

theorem recChildren_get? (cur : String) (cs : List (String × HObj)) (i : Nat) :
    (recChildren cur cs).get? i =
      (cs.get? i).map (fun ko => recNode cur ko.1 ko.2) := by
  induction cs generalizing i with
  | nil => simp [recChildren]
  | cons hd tl ih =>
    cases hd
    cases i with
    | zero => simp [recChildren]
    | succ j => simpa [recChildren] using ih j

/-- Descending into a produced node mirrors walking the source object,
each node being `recNode` at the walked parent path, name and object. -/
theorem getNode_recNode (p : List Nat) : ∀ (parent name : String) (obj : HObj),
    getNode (recNode parent name obj) p =
      (walkObj parent name obj p).map (fun x => recNode x.1 x.2.1 x.2.2) := by
  induction p with
  | nil =>
    intro parent name obj
    rfl
  | cons i q ih =>
    intro parent name obj
    cases obj with
    | dset => simp [getNode, recNode, walkObj, childAt, TNode.children]
    | group cs =>
      simp only [getNode, recNode, walkObj, childAt, TNode.children]
      rw [recChildren_get?]
      cases hc : cs.get? i with
      | none => simp
      | some ko =>
        cases ko
        simp [ih]

/-- C6: the tree returned by `hdf_tree_to_dict` carries the file's base
name as root id and `"/"` as root label, one node per group member, a
leaf per dataset, and on every non-root node the label joins the parent
path and the entry name with `"/"` (top-level entries, whose parent
path is empty, are labelled by their bare name). -/
theorem hdf_tree_to_dict_path_labels (fname : String) (cs : List (String × HObj))
    (r : TNode)
    (hr : hdf_tree_to_dict fname (Except.ok (HObj.group cs)) =
      Except.ok (Sum.inl [r])) :
    r.label = "/" ∧ r.id = basename fname ∧
    r.children = some (recChildren "" cs) ∧
    ∀ p n, getNode r p = some n → p ≠ [] →
      ∃ pp k o, walkObj "" "" (HObj.group cs) p = some (pp, k, o) ∧
        n.id = k ∧ n.label = joinPath pp k ∧
        (o = HObj.dset → n.children = none) ∧
        (∀ ds, o = HObj.group ds →
          ∃ l, n.children = some l ∧ l.length = ds.length) := by
  have h0 : hdf_tree_to_dict fname (Except.ok (HObj.group cs)) =
      Except.ok (Sum.inl [TNode.mk (basename fname) "/" (some (recChildren "" cs))]) := rfl
  rw [h0] at hr
  simp only [Except.ok.injEq, Sum.inl.injEq, List.cons.injEq, and_true] at hr
  subst hr
  refine ⟨rfl, rfl, rfl, ?_⟩
  intro p n hget hne
  cases p with
  | nil => exact absurd rfl hne
  | cons i q =>
    simp only [getNode, TNode.children] at hget
    rw [recChildren_get?] at hget
    cases hc : cs.get? i with
    | none =>
      rw [hc] at hget
      simp at hget
    | some ko =>
      obtain ⟨k, o⟩ := ko
      rw [hc] at hget
      simp only [Option.map_some'] at hget
      rw [getNode_recNode] at hget
      cases hw : walkObj "" k o q with
      | none =>
        rw [hw] at hget
        simp at hget
      | some x =>
        rw [hw] at hget
        simp only [Option.map_some', Option.some.injEq] at hget
        obtain ⟨pp, k2, o2⟩ := x
        refine ⟨pp, k2, o2, ?_, ?_, ?_, ?_, ?_⟩
        · simp only [walkObj, childAt]
          rw [hc, joinPath_empty]
          exact hw
        · rw [← hget]
          exact recNode_id pp k2 o2
        · rw [← hget]
          exact recNode_label pp k2 o2
        · rintro rfl
          rw [← hget]
          rfl
        · rintro ds rfl
          rw [← hget]
          exact ⟨recChildren (joinPath pp k2) ds, rfl, recChildren_length _ _⟩

/-- A small source tree: a group with a dataset inside, and a dataset. -/
def hobjSample : List (String × HObj) :=
  [("a", HObj.group [("b", HObj.dset)]), ("c", HObj.dset)]

/-- The node `hdf_tree_to_dict` produces for `hobjSample`. -/
def tnodeSample : TNode := TNode.mk "f.h5" "/" (some (recChildren "" hobjSample))

/-- Witness for C6 on a concrete file tree. -/
theorem hdf_tree_to_dict_path_labels_witness :
    tnodeSample.label = "/" ∧
    tnodeSample.id = basename "d/f.h5" ∧
    tnodeSample.children = some (recChildren "" hobjSample) :=
  ⟨(hdf_tree_to_dict_path_labels "d/f.h5" hobjSample tnodeSample rfl).1,
   (hdf_tree_to_dict_path_labels "d/f.h5" hobjSample tnodeSample rfl).2.1,
   (hdf_tree_to_dict_path_labels "d/f.h5" hobjSample tnodeSample rfl).2.2.1⟩

/-! ### C4 and C9: the byte-range stretch of `save_image` -/

theorem foldl_min_le_init (xs : List ℚ) (x : ℚ) : xs.foldl min x ≤ x := by
  induction xs generalizing x with
  | nil => exact le_refl x
  | cons a tl ih => exact le_trans (ih (min x a)) (min_le_left x a)

theorem foldl_min_le_mem (y : ℚ) (xs : List ℚ) (x : ℚ) (hy : y ∈ xs) :
    xs.foldl min x ≤ y := by
  induction xs generalizing x with
  | nil => cases hy
  | cons a tl ih =>
    rcases List.mem_cons.mp hy with rfl | h
    · calc (y :: tl).foldl min x = tl.foldl min (min x y) := rfl
        _ ≤ min x y := foldl_min_le_init _ _
        _ ≤ y := min_le_right x y
    · exact ih (min x a) h

theorem foldl_min_mem (xs : List ℚ) (x : ℚ) : xs.foldl min x ∈ x :: xs := by
  induction xs generalizing x with
  | nil => simp
  | cons a tl ih =>
    show tl.foldl min (min x a) ∈ x :: a :: tl
    rcases List.mem_cons.mp (ih (min x a)) with he | hm
    · rcases min_choice x a with h1 | h1
      · rw [he, h1]
        exact List.mem_cons_self _ _
      · rw [he, h1]
        exact List.mem_cons_of_mem _ (List.mem_cons_self _ _)
    · exact List.mem_cons_of_mem _ (List.mem_cons_of_mem _ hm)

theorem foldl_max_init_le (xs : List ℚ) (x : ℚ) : x ≤ xs.foldl max x := by
  induction xs generalizing x with
  | nil => exact le_refl x
  | cons a tl ih => exact le_trans (le_max_left x a) (ih (max x a))

theorem foldl_max_mem_le (y : ℚ) (xs : List ℚ) (x : ℚ) (hy : y ∈ xs) :
    y ≤ xs.foldl max x := by
  induction xs generalizing x with
  | nil => cases hy
  | cons a tl ih =>
    rcases List.mem_cons.mp hy with rfl | h
    · calc y ≤ max x y := le_max_right x y
        _ ≤ tl.foldl max (max x y) := foldl_max_init_le _ _
        _ = (y :: tl).foldl max x := rfl
    · exact ih (max x a) h

theorem foldl_max_mem (xs : List ℚ) (x : ℚ) : xs.foldl max x ∈ x :: xs := by
  induction xs generalizing x with
  | nil => simp
  | cons a tl ih =>
    show tl.foldl max (max x a) ∈ x :: a :: tl
    rcases List.mem_cons.mp (ih (max x a)) with he | hm
    · rcases max_choice x a with h1 | h1
      · rw [he, h1]
        exact List.mem_cons_self _ _
      · rw [he, h1]
        exact List.mem_cons_of_mem _ (List.mem_cons_self _ _)
    · exact List.mem_cons_of_mem _ (List.mem_cons_of_mem _ hm)

/-- `np.min` bounds every element from below. -/
theorem npMin_le (mat : Mat) (mn : ℚ) (h : npMin mat = Except.ok mn) :
    ∀ x ∈ matElems mat, mn ≤ x := by
  unfold npMin at h
  cases he : matElems mat with
  | nil => rw [he] at h; cases h
  | cons a tl =>
    rw [he] at h
    injection h with h
    intro x hx
    rw [← h]
    rcases List.mem_cons.mp hx with rfl | hm
    · exact foldl_min_le_init tl x
    · exact foldl_min_le_mem x tl a hm

/-- `np.min` returns one of the elements. -/
theorem npMin_mem (mat : Mat) (mn : ℚ) (h : npMin mat = Except.ok mn) :
    mn ∈ matElems mat := by
  unfold npMin at h
  cases he : matElems mat with
  | nil => rw [he] at h; cases h
  | cons a tl =>
    rw [he] at h
    injection h with h
    rw [← h]
    exact foldl_min_mem tl a

/-- `np.max` bounds every element from above. -/
theorem npMax_ge (mat : Mat) (mx : ℚ) (h : npMax mat = Except.ok mx) :
    ∀ x ∈ matElems mat, x ≤ mx := by
  unfold npMax at h
  cases he : matElems mat with
  | nil => rw [he] at h; cases h
  | cons a tl =>
    rw [he] at h
    injection h with h
    intro x hx
    rw [← h]
    rcases List.mem_cons.mp hx with rfl | hm
    · exact foldl_max_init_le tl x
    · exact foldl_max_mem_le x tl a hm

/-- `np.max` returns one of the elements. -/
theorem npMax_mem (mat : Mat) (mx : ℚ) (h : npMax mat = Except.ok mx) :
    mx ∈ matElems mat := by
  unfold npMax at h
  cases he : matElems mat with
  | nil => rw [he] at h; cases h
  | cons a tl =>
    rw [he] at h
    injection h with h
    rw [← h]
    exact foldl_max_mem tl a

/-- The byte of the processed image at row `i`, column `j`, when the
stretch ran. -/
def savedByteAt (r : Except String SavedMat) (i j : Nat) : Option Nat :=
  match r with
  | .ok (SavedMat.bytes b) => (b[i]?).bind (fun br => br[j]?)
  | _ => none

/-- C4: `save_image` hands the array to the image writer unmodified for
a `.tif`/`.tiff` target, and for any other extension first stretches
every value `x` to `uint8(255.0 * (x - min) / (max - min))` over the
array's global minimum and maximum. -/
theorem save_image_stretch (fp : String) (mat : Mat) :
    ((splitextExt fp = ".tif" ∨ splitextExt fp = ".tiff") →
      save_image_processed fp mat = Except.ok (SavedMat.raw mat)) ∧
    (¬(splitextExt fp = ".tif" ∨ splitextExt fp = ".tiff") →
      ∀ mn mx, npMin mat = Except.ok mn → npMax mat = Except.ok mx →
        ∀ i j row x, mat[i]? = some row → row[j]? = some x →
          savedByteAt (save_image_processed fp mat) i j =
            some (toUint8 (255 * (x - mn) / (mx - mn)))) := by
  constructor
  · intro h
    rcases h with h | h <;> simp [save_image_processed, h]
  · intro h mn mx hmn hmx i j row x hi hj
    have h1 : (splitextExt fp == ".tif") = false := by
      simp only [beq_eq_false_iff_ne, ne_eq]
      intro he
      exact h (Or.inl he)
    have h2 : (splitextExt fp == ".tiff") = false := by
      simp only [beq_eq_false_iff_ne, ne_eq]
      intro he
      exact h (Or.inr he)
    have hn : normalizeMat mat = Except.ok (mat.map (fun r =>
        r.map (fun y => toUint8 (255 * (y - mn) / (mx - mn))))) := by
      unfold normalizeMat
      rw [hmn, hmx]
      rfl
    have hp : save_image_processed fp mat = Except.ok (SavedMat.bytes (mat.map (fun r =>
        r.map (fun y => toUint8 (255 * (y - mn) / (mx - mn)))))) := by
      simp [save_image_processed, h1, h2, hn, Except.map]
    rw [hp]
    simp [savedByteAt, hi, hj]

/-- A constant 2×1 image. -/
def constMat : Mat := [[3], [3]]

/-- A non-constant 2×2 image with values 0, 128, 255, 64. -/
def rampMat : Mat := [[0, 128], [255, 64]]

/-- Witness for C4: a `.tif` target keeps a matrix unchanged; a `.png`
target stretches the element at row 0, column 1 of `rampMat`. -/
theorem save_image_stretch_witness :
    save_image_processed "a.tif" rampMat = Except.ok (SavedMat.raw rampMat) ∧
    savedByteAt (save_image_processed "a.png" rampMat) 0 1 =
      some (toUint8 (255 * ((128 : ℚ) - 0) / (255 - 0))) :=
  ⟨(save_image_stretch "a.tif" rampMat).1 (Or.inl rfl),
   (save_image_stretch "a.png" rampMat).2 (by decide) 0 255 rfl rfl 0 1 [0, 128] 128
     rfl rfl⟩

/-- C9: the stretch divisor `max - min` is nonzero exactly when the
array holds two distinct values, and no guard protects the constant
case: for any non-`.tif`/`.tiff` target the stretch runs with that
divisor regardless. -/
theorem save_image_divisor (mat : Mat) (mn mx : ℚ)
    (hmn : npMin mat = Except.ok mn) (hmx : npMax mat = Except.ok mx) :
    (mx - mn ≠ 0 ↔ ∃ x ∈ matElems mat, ∃ y ∈ matElems mat, x ≠ y) ∧
    (∀ fp, ¬(splitextExt fp = ".tif" ∨ splitextExt fp = ".tiff") →
      save_image_processed fp mat = Except.ok (SavedMat.bytes (mat.map (fun row =>
        row.map (fun x => toUint8 (255 * (x - mn) / (mx - mn))))))) := by
  constructor
  · constructor
    · intro hne
      exact ⟨mx, npMax_mem mat mx hmx, mn, npMin_mem mat mn hmn,
        fun he => hne (by rw [he, sub_self])⟩
    · rintro ⟨x, hx, y, hy, hxy⟩ heq
      have hxmn : x = mn := le_antisymm
        (by have := npMax_ge mat mx hmx x hx; linarith [sub_eq_zero.mp heq])
        (npMin_le mat mn hmn x hx)
      have hymn : y = mn := le_antisymm
        (by have := npMax_ge mat mx hmx y hy; linarith [sub_eq_zero.mp heq])
        (npMin_le mat mn hmn y hy)
      exact hxy (hxmn.trans hymn.symm)
  · intro fp h
    have h1 : (splitextExt fp == ".tif") = false := by
      simp only [beq_eq_false_iff_ne, ne_eq]
      intro he
      exact h (Or.inl he)
    have h2 : (splitextExt fp == ".tiff") = false := by
      simp only [beq_eq_false_iff_ne, ne_eq]
      intro he
      exact h (Or.inr he)
    have hn : normalizeMat mat = Except.ok (mat.map (fun r =>
        r.map (fun y => toUint8 (255 * (y - mn) / (mx - mn))))) := by
      unfold normalizeMat
      rw [hmn, hmx]
      rfl
    simp [save_image_processed, h1, h2, hn, Except.map]

/-- Witness for C9: on the constant matrix the divisor is zero yet the
stretch still runs (dividing by zero); `3 - 3 = 0` shows there are no
two distinct values by the equivalence. -/
theorem save_image_divisor_witness :
    save_image_processed "z.png" constMat = Except.ok (SavedMat.bytes
      (constMat.map (fun row => row.map (fun x =>
        toUint8 (255 * (x - 3) / ((3 : ℚ) - 3)))))) ∧
    ((3 : ℚ) - 3 ≠ 0 ↔ ∃ x ∈ matElems constMat, ∃ y ∈ matElems constMat, x ≠ y) :=
  ⟨(save_image_divisor constMat 3 3 rfl rfl).2 "z.png" (by decide),
   (save_image_divisor constMat 3 3 rfl rfl).1⟩

/-! ### C7: catch-and-report error handling -/

/-- C7 counterexample: `save_image` runs the stretch before its
`try` block, so normalizing a zero-size array raises to the caller
instead of being returned. -/
theorem save_image_uncaught_counterexample :
    noRaise (save_image "a.png" ([] : Mat) (Except.ok ())) = false ∧
    save_image "a.png" ([] : Mat) (Except.ok ()) = Except.error zeroSizeErr :=
  ⟨rfl, rfl⟩

/-- C7 amended: `hdf_tree_to_dict` and `save_table` never raise — on
failure they return the caught exception object (`save_table` returns
`None` on success) — while `save_image` catches only the final
`image.save` call: failures of the stretch before the `try` block
propagate to the caller. -/
theorem error_handling_catch_and_return (fname : String)
    (openStep : Except String HObj) (d12 : Arr12) (o w : Except String Unit)
    (fp : String) (mat : Mat) (ss : Except String Unit) :
    noRaise (hdf_tree_to_dict fname openStep) = true ∧
    (∀ e, openStep = Except.error e →
      hdf_tree_to_dict fname openStep = Except.ok (Sum.inr e)) ∧
    noRaise (save_table d12 o w) = true ∧
    (o = Except.ok () → w = Except.ok () → save_table d12 o w = Except.ok none) ∧
    (∀ e, o = Except.error e → save_table d12 o w = Except.ok (some e)) ∧
    (∀ m, save_image_processed fp mat = Except.ok m → ss = Except.ok () →
      save_image fp mat ss = Except.ok none) ∧
    (∀ m e, save_image_processed fp mat = Except.ok m → ss = Except.error e →
      save_image fp mat ss = Except.ok (some e)) ∧
    (∀ e, save_image_processed fp mat = Except.error e →
      save_image fp mat ss = Except.error e) := by
  refine ⟨?_, ?_, ?_, ?_, ?_, ?_, ?_, ?_⟩
  · cases openStep <;> rfl
  · rintro e rfl
    rfl
  · cases o <;> cases w <;> rfl
  · rintro rfl rfl
    rfl
  · rintro e rfl
    rfl
  · intro m hm hss
    subst hss
    simp only [save_image, hm]
    rfl
  · intro m e hm hss
    subst hss
    simp only [save_image, hm]
    rfl
  · intro e hm
    simp only [save_image, hm]
    rfl

/-- Witness for the amended C7 at concrete failures and successes. -/
theorem error_handling_catch_and_return_witness :
    hdf_tree_to_dict "f.h5" (Except.error "boom") = Except.ok (Sum.inr "boom") ∧
    save_table (Arr12.a1 [1]) (Except.ok ()) (Except.ok ()) = Except.ok none ∧
    save_image "a.tif" [[1]] (Except.error "disk full") = Except.ok (some "disk full") :=
  ⟨(error_handling_catch_and_return "f.h5" (Except.error "boom") (Arr12.a1 [1])
      (Except.ok ()) (Except.ok ()) "a.tif" [[1]] (Except.error "disk full")).2.1
      "boom" rfl,
   (error_handling_catch_and_return "f.h5" (Except.error "boom") (Arr12.a1 [1])
      (Except.ok ()) (Except.ok ()) "a.tif" [[1]] (Except.error "disk full")).2.2.2.1
      rfl rfl,
   (error_handling_catch_and_return "f.h5" (Except.error "boom") (Arr12.a1 [1])
      (Except.ok ()) (Except.ok ()) "a.tif" [[1]] (Except.error "disk full")).2.2.2.2.2.2.1
      (SavedMat.raw [[1]]) "disk full" rfl rfl⟩

/-! ### C5: extension routing of the export handlers -/

/-- C5: when saving displayed 1d/2d data, an empty extension becomes
`.csv` appended to the path, any other non-`.csv` extension is rejected
with a notification, and `.csv` routes to the table writer; when saving
the displayed image, only `.tif`, `.jpg`, `.png`, `.csv` are accepted,
`.csv` routed to the table writer, the rest to the image writer. -/
theorem save_handlers_extension (fp : String) (hfp : fp ≠ "") :
    (splitextExt fp = "" →
      save_data_action (some fp) true = SaveAction.savedTable (fp ++ ".csv")) ∧
    (splitextExt fp ≠ "" → splitextExt fp ≠ ".csv" →
      save_data_action (some fp) true = SaveAction.notifyExt) ∧
    (splitextExt fp = ".csv" →
      save_data_action (some fp) true = SaveAction.savedTable fp) ∧
    (splitextExt fp ∉ [".tif", ".jpg", ".png", ".csv"] →
      save_image_action (some fp) true = SaveAction.notifyExt) ∧
    (splitextExt fp = ".csv" →
      save_image_action (some fp) true = SaveAction.savedTable fp) ∧
    (splitextExt fp = ".tif" ∨ splitextExt fp = ".jpg" ∨ splitextExt fp = ".png" →
      save_image_action (some fp) true = SaveAction.savedImage fp) := by
  have hfpb : (fp == "") = false := by
    simpa using hfp
  refine ⟨?_, ?_, ?_, ?_, ?_, ?_⟩
  · intro he
    simp [save_data_action, hfpb, he]
  · intro h1 h2
    have b1 : (splitextExt fp == "") = false := by simpa using h1
    have b2 : (splitextExt fp != ".csv") = true := by simpa using h2
    simp [save_data_action, hfpb, b1, b2]
  · intro he
    simp [save_data_action, hfpb, he]
  · intro hn
    simp only [List.mem_cons, List.mem_singleton, not_or] at hn
    obtain ⟨n1, n2, n3, n4⟩ := hn
    have b1 : (splitextExt fp != ".tif") = true := by simpa using n1
    have b2 : (splitextExt fp != ".jpg") = true := by simpa using n2
    have b3 : (splitextExt fp != ".png") = true := by simpa using n3
    have b4 : (splitextExt fp != ".csv") = true := by simpa using n4
    simp [save_image_action, hfpb, b1, b2, b3, b4]
  · intro he
    simp [save_image_action, hfpb, he]
  · intro he
    rcases he with he | he | he <;> simp [save_image_action, hfpb, he]

/-- Witness for C5 at concrete paths. -/
theorem save_handlers_extension_witness :
    save_data_action (some "out") true = SaveAction.savedTable ("out" ++ ".csv") ∧
    save_data_action (some "out.txt") true = SaveAction.notifyExt ∧
    save_image_action (some "a.png") true = SaveAction.savedImage "a.png" ∧
    save_image_action (some "a.csv") true = SaveAction.savedTable "a.csv" :=
  ⟨(save_handlers_extension "out" (by decide)).1 rfl,
   (save_handlers_extension "out.txt" (by decide)).2.1 (by decide) (by decide),
   (save_handlers_extension "a.png" (by decide)).2.2.2.2.2 (Or.inr (Or.inr rfl)),
   (save_handlers_extension "a.csv" (by decide)).2.2.2.2.1 rfl⟩

/-! ### C8: `format_table_from_array` -/

/-- Height of the (1d-expanded) array: `data.shape[0]`. -/
def heightOf (data : Arr12) : Nat := (expand1 data).length

/-- Width of the (1d-expanded) array: `data.shape[1]`. -/
def widthOf (data : Arr12) : Nat := ((expand1 data).headD []).length

/-- C8: `format_table_from_array` returns `(None, None)` exactly when
both leading dimensions exceed 1000; otherwise it returns `height` rows
and `width + 1` column descriptors, the first column named `"Index"`,
row `i` carrying `i` in its `"Index"` field and the values of row `i`
of the expanded array in the remaining fields. -/
theorem format_table_characterization (data : Arr12) :
    (format_table_from_array data = (none, none) ↔
      heightOf data > 1000 ∧ widthOf data > 1000) ∧
    ∀ rows cols, format_table_from_array data = (some rows, some cols) →
      rows.length = heightOf data ∧
      cols.length = widthOf data + 1 ∧
      cols[0]? = some "Index" ∧
      ∀ (i : Nat) (row : List ℚ), (expand1 data)[i]? = some row →
        rows[i]? = some ((List.range (widthOf data + 1)).map (fun j =>
          (("Index" :: (List.range (widthOf data)).map colName).getD j "",
            ((i : ℚ) :: row).getD j 0))) ∧
        ((List.range (widthOf data + 1)).map (fun j =>
          (("Index" :: (List.range (widthOf data)).map colName).getD j "",
            ((i : ℚ) :: row).getD j 0)))[0]? = some ("Index", (i : ℚ)) ∧
        ∀ (j : Nat) (x : ℚ), j < widthOf data → row[j]? = some x →
          ((List.range (widthOf data + 1)).map (fun j =>
            (("Index" :: (List.range (widthOf data)).map colName).getD j "",
              ((i : ℚ) :: row).getD j 0)))[j + 1]? = some (colName j, x) := by
  constructor
  · constructor
    · intro hres
      simp only [format_table_from_array] at hres
      split at hres
      · next h => simpa [heightOf, widthOf] using h
      · simp at hres
    · intro hc
      simp only [format_table_from_array]
      split
      · rfl
      · next h =>
        exfalso
        apply h
        simp only [Bool.and_eq_true, decide_eq_true_eq]
        simp only [heightOf, widthOf] at hc
        exact hc
  · intro rows cols hr
    simp only [format_table_from_array] at hr
    split at hr
    · simp at hr
    · simp only [Prod.mk.injEq, Option.some.injEq] at hr
      obtain ⟨hrw, hcl⟩ := hr
      subst hrw
      subst hcl
      refine ⟨by simp [heightOf], by simp [widthOf], by simp, ?_⟩
      intro i row hi
      refine ⟨?_, ?_, ?_⟩
      · simp [List.getElem?_enum, hi, widthOf]
      · have h0 : (0 : Nat) < widthOf data + 1 := Nat.succ_pos _
        simp only [List.getElem?_map, List.getElem?_range h0, Option.map_some']
        simp
      · intro j x hj hx
        have hj1 : j + 1 < widthOf data + 1 := by omega
        have hjr : (List.range (widthOf data))[j]? = some j :=
          List.getElem?_range hj
        simp only [List.getElem?_map, List.getElem?_range hj1, Option.map_some',
          Option.some.injEq, List.getD_cons_succ]
        have e1 : (("Index" :: (List.range (widthOf data)).map colName).getD (j + 1) "")
            = colName j := by
          simp [List.getD_eq_getElem?_getD, hjr]
        have e2 : row.getD j (0 : ℚ) = x := by
          simp [List.getD_eq_getElem?_getD, hx]
        rw [List.getD_cons_succ] at e1
        simp only [List.getD_eq_getElem?_getD] at e1 e2 ⊢
        rw [e1, e2]

/-- Witness for C8: a 2×2 array yields a 2-row, 3-column table, and
the thousand-bound refusal matches the characterization at this
shape. -/
theorem format_table_characterization_witness :
    (format_table_from_array (Arr12.a2 [[5, 6], [7, 8]]) = (none, none) ↔
      heightOf (Arr12.a2 [[5, 6], [7, 8]]) > 1000 ∧
      widthOf (Arr12.a2 [[5, 6], [7, 8]]) > 1000) ∧
    (format_table_from_array (Arr12.a2 [[5, 6], [7, 8]])).1.map List.length =
      some 2 :=
  ⟨(format_table_characterization (Arr12.a2 [[5, 6], [7, 8]])).1, rfl⟩

end Broh5

